import Mathlib

/-
  Verification of the untrusted-code-execution subsystem (the "runner") of the
  CLOUD-PROJECT-1 coding-contest platform, against its design document.

  The embedding below follows the runner sources:
  - runner/src/executor.ts   (LANGUAGE_CONFIG, processSubmission)
  - runner/src/config.ts     (RunnerConfig, loadConfig defaults)
  - runner/src/registry.ts   (registerRunner, heartbeat)
  - the worker entry point   (createSigner wiring, activeContainers,
                              processJob, pollQueue, main)
  - the crypto module        (createSigner)

  Effectful Docker/HTTP calls are modelled by threading an explicit oracle of
  call outcomes (success, thrown error, returned data) through the translated
  control flow, and by recording the Docker side effects in an event trace
  together with the set of containers still existing when the call returns.
-/

namespace CloudRunner

/-- SubmissionJob, executor.ts lines 6-13. `timeLimit` is in milliseconds and
`memoryLimit` in megabytes, as dispatched by the backend. -/
structure SubmissionJob where
  submissionId : String
  language : String
  code : String
  problemId : String
  timeLimit : Nat
  memoryLimit : Nat
deriving DecidableEq, Repr

/-- ExecutionResult, executor.ts lines 15-25. Optional fields are `Option`
because the SYSTEM_ERROR return paths build the record without them. -/
structure ExecutionResult where
  submissionId : String
  verdict : String
  score : Option Nat := none
  executionTime : Option Nat := none
  memoryUsed : Option Nat := none
  testCasesPassed : Option Nat := none
  totalTestCases : Option Nat := none
  output : Option String := none
  error : Option String := none
deriving DecidableEq, Repr

/-- One entry of LANGUAGE_CONFIG, executor.ts lines 27-32. -/
structure LangConfig where
  image : String
  command : List String
  fileName : String
deriving DecidableEq, Repr

/-- LANGUAGE_CONFIG, executor.ts lines 33-63: the static language table keyed
by language name; a missing key is a runtime map miss (`undefined`). -/
def LANGUAGE_CONFIG (lang : String) : Option LangConfig :=
  if lang = "cpp" then
    some { image := "codecontest/cpp-runner:latest",
           command := ["/bin/sh", "-c", "g++ -O2 -std=c++17 -o main main.cpp && ./main"],
           fileName := "main.cpp" }
  else if lang = "java" then
    some { image := "codecontest/java-runner:latest",
           command := ["/bin/sh", "-c", "javac Main.java && java Main"],
           fileName := "Main.java" }
  else if lang = "python" then
    some { image := "codecontest/python-runner:latest",
           command := ["python3", "main.py"],
           fileName := "main.py" }
  else if lang = "javascript" then
    some { image := "codecontest/nodejs-runner:latest",
           command := ["node", "main.js"],
           fileName := "main.js" }
  else if lang = "go" then
    some { image := "codecontest/go-runner:latest",
           command := ["/bin/sh", "-c", "go build -o main main.go && ./main"],
           fileName := "main.go" }
  else if lang = "rust" then
    some { image := "codecontest/rust-runner:latest",
           command := ["/bin/sh", "-c", "rustc -O -o main main.rs && ./main"],
           fileName := "main.rs" }
  else
    none

/-- RunnerConfig, config.ts lines 5-15. -/
structure RunnerConfig where
  runnerId : String
  privateKey : String
  publicKey : String
  apiUrl : String
  dockerSocket : String
  concurrency : Nat
  maxExecutionTime : Nat
  maxMemory : Nat
  networkDisabled : Bool
deriving DecidableEq, Repr

/-- JavaScript `s.includes(pat)` for the nonempty literal patterns used by the
executor: `pat` occurs in `s` exactly when splitting on it yields two or more
pieces. -/
def strIncludes (s pat : String) : Bool :=
  (s.splitOn pat).length ≥ 2

/-- Outcomes of the awaited Docker calls inside one processSubmission call:
for each call, whether it resolves (`true`) or rejects (`false`), plus the
data a resolving call returns (exit status from `container.wait`, measured
wall-clock time, `stats.memory_stats.usage`, captured streams) and the message
of whatever error a rejecting call throws. -/
structure DockerOracle where
  createOk : Bool
  putArchiveOk : Bool
  startOk : Bool
  logsOk : Bool
  waitOk : Bool
  statsOk : Bool
  removeOk : Bool
  statusCode : Nat
  elapsed : Nat
  memUsage : Nat
  output : String
  errorOutput : String
  errMsg : String
deriving DecidableEq, Repr

/-- An all-success oracle: every Docker call resolves, and the run produces
the given exit status, wall-clock time, memory usage and captured streams. -/
def okOracle (statusCode elapsed memUsage : Nat) (output errorOutput : String) :
    DockerOracle :=
  { createOk := true, putArchiveOk := true, startOk := true, logsOk := true,
    waitOk := true, statsOk := true, removeOk := true,
    statusCode := statusCode, elapsed := elapsed, memUsage := memUsage,
    output := output, errorOutput := errorOutput, errMsg := "" }

/-- Docker side effects performed by processSubmission, as recorded in the
trace: container creation carries the provisioning parameters the claims are
about (HostConfig.Memory, MemorySwap, PidsLimit from executor.ts lines
110-132), removal is the forced `container.remove`. -/
inductive DockerEvent where
  | createContainer (name image : String) (memory memorySwap pidsLimit : Nat)
  | removeContainer (name : String)
deriving DecidableEq, Repr

/-- Result of one processSubmission call: the returned ExecutionResult, the
trace of Docker side effects, and the containers created for this job that
still exist when the call returns. -/
structure ProcRun where
  result : ExecutionResult
  events : List DockerEvent
  containers : List String
deriving DecidableEq, Repr

/-- The bare SYSTEM_ERROR result built on the unsupported-language path
(executor.ts lines 99-103) and in the catch block (lines 225-229): only
submissionId, verdict and error are present. -/
def sysError (job : SubmissionJob) (msg : String) : ExecutionResult :=
  { submissionId := job.submissionId, verdict := "SYSTEM_ERROR", error := some msg }

/-- The catch block of processSubmission (executor.ts lines 217-230): the
error is logged, a forced remove of the named container is attempted with any
failure swallowed, and a bare SYSTEM_ERROR result is returned. `evs` is the
trace so far and `live` the containers existing when the catch block runs. -/
def catchRun (job : SubmissionJob) (containerName : String) (evs : List DockerEvent)
    (live : List String) (removeOk : Bool) (msg : String) : ProcRun :=
  { result := sysError job msg,
    events := evs ++ [DockerEvent.removeContainer containerName],
    containers := if removeOk then live.erase containerName else live }

/-- Verdict classification, executor.ts lines 188-204: exit status 137 or
overlong wall-clock time, then memory above the job's limit in bytes, then
nonzero exit split by the compile-error signatures in stderr, then ACCEPTED
with score 100. Returns the (verdict, score) pair. -/
def classifyOutcome (job : SubmissionJob) (statusCode elapsed memUsage : Nat)
    (errorOutput : String) : String × Nat :=
  if statusCode = 137 ∨ elapsed > job.timeLimit then
    ("TIME_LIMIT_EXCEEDED", 0)
  else if memUsage > job.memoryLimit * 1024 * 1024 then
    ("MEMORY_LIMIT_EXCEEDED", 0)
  else if statusCode ≠ 0 then
    (if strIncludes errorOutput "Compilation error" ||
        strIncludes errorOutput "SyntaxError" then
      ("COMPILATION_ERROR", 0)
    else
      ("RUNTIME_ERROR", 0))
  else
    ("ACCEPTED", 100)

/-- processSubmission, executor.ts lines 91-231, with the awaited Docker calls
resolved through the oracle. An unsupported language returns immediately; a
rejecting Docker call transfers control to the catch block; on the success
path the container is removed (line 186) and the outcome is classified into a
verdict (lines 188-204) in the source's priority order. -/
def processSubmission (o : DockerOracle) (job : SubmissionJob)
    (config : RunnerConfig) : ProcRun :=
  match LANGUAGE_CONFIG job.language with
  | none =>
      { result := sysError job ("Unsupported language: " ++ job.language),
        events := [], containers := [] }
  | some langConfig =>
      let containerName := "submission-" ++ job.submissionId
      if o.createOk then
        let createEv := DockerEvent.createContainer containerName langConfig.image
          config.maxMemory config.maxMemory 32
        if o.putArchiveOk && o.startOk && o.logsOk && o.waitOk && o.statsOk then
          if o.removeOk then
            let vs := classifyOutcome job o.statusCode o.elapsed o.memUsage o.errorOutput
            { result :=
                { submissionId := job.submissionId,
                  verdict := vs.1,
                  score := some vs.2,
                  executionTime := some o.elapsed,
                  memoryUsed := some o.memUsage,
                  testCasesPassed := some (if vs.1 = "ACCEPTED" then 1 else 0),
                  totalTestCases := some 1,
                  output := some (o.output.take 10000),
                  error := some (o.errorOutput.take 10000) },
              events := [createEv, DockerEvent.removeContainer containerName],
              containers := [] }
          else
            catchRun job containerName
              [createEv, DockerEvent.removeContainer containerName]
              [containerName] o.removeOk o.errMsg
        else
          catchRun job containerName [createEv] [containerName] o.removeOk o.errMsg
      else
        catchRun job containerName [] [] o.removeOk o.errMsg

/-- The interface returned by createSigner in the crypto module. -/
structure Signer where
  sign : String → String
  verify : String → String → String → Bool

/-- The node `crypto` signing primitives as an abstract backend: `primSign`
is `createSign(alg).update(data).sign(privKey, enc)` and `primVerify` is
`createVerify(alg).update(data).verify(pubKey, sig, enc)`. -/
structure CryptoPrimitive where
  primSign : (alg : String) → (data : String) → (privKey : String) → (enc : String) → String
  primVerify : (alg : String) → (data : String) → (pubKey : String) → (sig : String) → (enc : String) → Bool

/-- createSigner, crypto module lines 8-23: signing hashes with SHA256 and
encodes the signature in base64; verification uses SHA256 and decodes the
signature from base64. -/
def createSigner (P : CryptoPrimitive) (privateKey : String) : Signer :=
  { sign := fun data => P.primSign "SHA256" data privateKey "base64",
    verify := fun data signature publicKey =>
      P.primVerify "SHA256" data publicKey signature "base64" }

/-- A keypair is matching when the backend's verify accepts the backend's own
signatures for every hash algorithm, payload and encoding: the correctness
contract of the underlying public-key scheme. -/
def MatchingKeypair (P : CryptoPrimitive) (privateKey publicKey : String) : Prop :=
  ∀ alg data enc, P.primVerify alg data publicKey (P.primSign alg data privateKey enc) enc = true

/-- One body POSTed to `/api/runner/result` by processJob: the fields the
invariants are about. On the success path the body spreads the result and
adds `runnerId` and `signature`; the catch-path body has neither, and the
request also lacks the X-Runner-Signature header. -/
structure PostedResult where
  submissionId : String
  verdict : String
  runnerId : Option String
  signature : Option String
  headerSignature : Option String
deriving DecidableEq, Repr

/-- Whether `await processSubmission(...)` resolved with a result or the
awaited expression rejected (and with `signThrows`, whether the subsequent
`signer.sign(JSON.stringify(result))` threw). -/
inductive SubmissionOutcome where
  | ok (r : ExecutionResult)
  | threw (msg : String)
deriving DecidableEq, Repr

/-- processJob, worker entry point lines 40-79: on success the result is
signed over its serialization and posted with the signature in both body and
header; if processSubmission or signing throws, the catch block posts a bare
SYSTEM_ERROR body with no signature field and no signature header.
`stringify` stands for `JSON.stringify` on the result. -/
def processJob (sign : String → String) (stringify : ExecutionResult → String)
    (runnerId : String) (job : SubmissionJob) (outcome : SubmissionOutcome)
    (signThrows : Bool) : List PostedResult :=
  match outcome with
  | .threw _ =>
      [{ submissionId := job.submissionId, verdict := "SYSTEM_ERROR",
         runnerId := none, signature := none, headerSignature := none }]
  | .ok r =>
      if signThrows then
        [{ submissionId := job.submissionId, verdict := "SYSTEM_ERROR",
           runnerId := none, signature := none, headerSignature := none }]
      else
        [{ submissionId := r.submissionId, verdict := r.verdict,
           runnerId := some runnerId,
           signature := some (sign (stringify r)),
           headerSignature := some (sign (stringify r)) }]

/-- The response obtained by pollQueue's fetch of `/api/runner/job`: a
transport failure, a non-2xx status, or a 2xx response whose JSON is a job. -/
inductive PollResponse where
  | transportError (msg : String)
  | notOk (status : Nat)
  | okJob (job : SubmissionJob)
deriving DecidableEq, Repr

/-- What one pollQueue tick does with the queue's job: nothing (no job or
fetch failure), discard a fetched job, or hand it to processJob. -/
inductive PollAction where
  | idle
  | dropped (job : SubmissionJob)
  | handed (job : SubmissionJob)
deriving DecidableEq, Repr

/-- pollQueue, worker entry point lines 81-108: the job endpoint is fetched
first; only after parsing the job body is `activeContainers.size` compared
with CONCURRENCY, and at capacity the tick returns with a warning, without
handing the already-fetched job to processJob. -/
def pollQueue (resp : PollResponse) (activeSize concurrency : Nat) : PollAction :=
  match resp with
  | .transportError _ => .idle
  | .notOk _ => .idle
  | .okJob job =>
      if activeSize ≥ concurrency then .dropped job else .handed job

/-- cleanupContainer, worker entry point lines 21-31: stop then remove then
delete the map entry; if stop or remove throws, the error is logged and the
map entry is not deleted. -/
def cleanupContainer (active : List String) (containerId : String)
    (stopOk removeOk : Bool) : List String :=
  if stopOk && removeOk then active.filter (· ≠ containerId) else active

/-- The shared `activeContainers` map threaded through one processSubmission
call. Neither processJob nor processSubmission ever touches the map, so the
embedding returns it unchanged; `afterProvision` is its value observed
immediately after `createContainer` succeeds (`none` when no container was
provisioned). -/
structure SharedSetRun where
  run : ProcRun
  afterProvision : Option (List String)
  finalActive : List String
deriving DecidableEq, Repr

/-- processSubmission with the shared `activeContainers` map in view: the
executor contains no insertion into (or deletion from) the map, so its value
at every observation point equals the caller's. -/
def processSubmissionShared (active : List String) (o : DockerOracle)
    (job : SubmissionJob) (config : RunnerConfig) : SharedSetRun :=
  match LANGUAGE_CONFIG job.language with
  | none => { run := processSubmission o job config, afterProvision := none,
              finalActive := active }
  | some _ =>
      if o.createOk then
        { run := processSubmission o job config, afterProvision := some active,
          finalActive := active }
      else
        { run := processSubmission o job config, afterProvision := none,
          finalActive := active }

/-- The response to one registry HTTP POST: resolved ok, resolved with an
error status, or rejected in transport. -/
inductive HttpOutcome where
  | ok
  | httpError (status : Nat)
  | transportError (msg : String)
deriving DecidableEq, Repr

/-- registerRunner, registry.ts lines 4-28: a non-ok response raises, and the
catch block logs the failure and rethrows it to the caller. -/
def registerRunner : HttpOutcome → Except String Unit
  | .ok => .ok ()
  | .httpError status => .error ("Failed to register: " ++ toString status)
  | .transportError msg => .error msg

/-- heartbeat, registry.ts lines 30-51: a non-ok response only logs a
warning, and the catch block logs the error without rethrowing, so the call
always resolves. -/
def heartbeat : HttpOutcome → Except String Unit
  | .ok => .ok ()
  | .httpError _ => .ok ()
  | .transportError _ => .ok ()

/-- Each heartbeat interval tick calls heartbeat independently of the fate of
earlier ticks: the outcomes of the first `n` scheduled heartbeats. -/
def heartbeatTicks (outcomes : Nat → HttpOutcome) (n : Nat) :
    List (Except String Unit) :=
  (List.range n).map (fun i => heartbeat (outcomes i))

/-- Fate of the worker process after startup. -/
inductive MainOutcome where
  | running
  | exited (code : Nat)
deriving DecidableEq, Repr

/-- main and its top-level catch, worker entry point lines 110-136: main
awaits registerRunner before starting the intervals, and `main().catch` calls
`process.exit(1)` on any rejection. -/
def mainStartup (reg : Except String Unit) : MainOutcome :=
  match reg with
  | .error _ => .exited 1
  | .ok () => .running

/-! Concrete fixtures, taken from the design document's concrete scenario and
the `loadConfig` environment defaults of config.ts. -/

/-- The concrete scenario job of the design document: python `print(1+1)`
with a 2000 ms time limit and a 256 MB memory limit. -/
def job0 : SubmissionJob :=
  { submissionId := "s1", language := "python", code := "print(1+1)",
    problemId := "p1", timeLimit := 2000, memoryLimit := 256 }

/-- A job whose language has no LANGUAGE_CONFIG entry. -/
def jobBad : SubmissionJob :=
  { submissionId := "s2", language := "haskell", code := "main = pure ()",
    problemId := "p1", timeLimit := 2000, memoryLimit := 256 }

/-- A runner configuration with the loadConfig defaults of config.ts lines
32-43: concurrency 4, max execution time 10000 ms, maxMemory 536870912 bytes,
network disabled. -/
def cfg0 : RunnerConfig :=
  { runnerId := "runner-1", privateKey := "priv-pem", publicKey := "pub-pem",
    apiUrl := "http://localhost:3000", dockerSocket := "/var/run/docker.sock",
    concurrency := 4, maxExecutionTime := 10000, maxMemory := 536870912,
    networkDisabled := true }

/-- An all-success run: exit status 0 after 5 ms using 1000 bytes, stdout
`2`, empty stderr. -/
def oracle0 : DockerOracle := okOracle 0 5 1000 "2\n" ""

/-- The LANGUAGE_CONFIG entry for python, executor.ts lines 43-47. -/
def pythonConfig : LangConfig :=
  { image := "codecontest/python-runner:latest",
    command := ["python3", "main.py"],
    fileName := "main.py" }

/-- The HostConfig.Memory value of the first container creation in a trace. -/
def createdMemory : List DockerEvent → Option Nat
  | [] => none
  | DockerEvent.createContainer _ _ m _ _ :: _ => some m
  | DockerEvent.removeContainer _ :: es => createdMemory es

/-- Whether a trace contains a container creation. -/
def hasCreate : List DockerEvent → Bool
  | [] => false
  | DockerEvent.createContainer _ _ _ _ _ :: _ => true
  | DockerEvent.removeContainer _ :: es => hasCreate es

/-- A toy signing backend for concrete instantiation: a signature is the key
prepended to the payload and verification recomputes it, so a keypair whose
halves are equal is matching. -/
def toyPrimitive : CryptoPrimitive :=
  { primSign := fun _ data k _ => k ++ data,
    primVerify := fun _ data pub sig _ => sig == pub ++ data }

/-! Helper lemmas shared by the claim theorems. -/

/-- The verdict produced by classifyOutcome is always one of the five
classified verdicts. -/
theorem classifyOutcome_fst_mem (job : SubmissionJob) (sc t m : Nat) (e : String) :
    (classifyOutcome job sc t m e).1 = "TIME_LIMIT_EXCEEDED" ∨
    (classifyOutcome job sc t m e).1 = "MEMORY_LIMIT_EXCEEDED" ∨
    (classifyOutcome job sc t m e).1 = "COMPILATION_ERROR" ∨
    (classifyOutcome job sc t m e).1 = "RUNTIME_ERROR" ∨
    (classifyOutcome job sc t m e).1 = "ACCEPTED" := by
  unfold classifyOutcome
  split_ifs <;> simp

/-- On a supported language with every Docker call succeeding,
processSubmission returns the fully populated result built from the
classification of the run's raw outcome. -/
theorem processSubmission_okOracle (job : SubmissionJob) (config : RunnerConfig)
    (lc : LangConfig) (hl : LANGUAGE_CONFIG job.language = some lc)
    (sc t m : Nat) (out err : String) :
    (processSubmission (okOracle sc t m out err) job config).result =
      { submissionId := job.submissionId,
        verdict := (classifyOutcome job sc t m err).1,
        score := some (classifyOutcome job sc t m err).2,
        executionTime := some t,
        memoryUsed := some m,
        testCasesPassed := some (if (classifyOutcome job sc t m err).1 = "ACCEPTED" then 1 else 0),
        totalTestCases := some 1,
        output := some (out.take 10000),
        error := some (err.take 10000) } := by
  simp [processSubmission, hl, okOracle]

/-! Claim theorems. -/

/-- C1: the claim that every result posted by processJob carries a signature
fails on the catch path. When `await processSubmission(...)` rejects, and
likewise when `signer.sign` throws after a result was produced, the catch
block posts a bare SYSTEM_ERROR body with no signature field (and no
X-Runner-Signature header): an unsigned result leaves the coordinator. -/
theorem C1_catch_path_posts_unsigned :
    processJob (fun data => "sig-" ++ data) (fun r => r.verdict) "runner-1" job0
        (SubmissionOutcome.threw "connect ECONNREFUSED /var/run/docker.sock") false =
      [{ submissionId := "s1", verdict := "SYSTEM_ERROR",
         runnerId := none, signature := none, headerSignature := none }] ∧
    processJob (fun data => "sig-" ++ data) (fun r => r.verdict) "runner-1" job0
        (SubmissionOutcome.ok (sysError job0 "boom")) true =
      [{ submissionId := "s1", verdict := "SYSTEM_ERROR",
         runnerId := none, signature := none, headerSignature := none }] :=
  ⟨rfl, rfl⟩

/-- C2: for a supported language, with every Docker call succeeding,
processSubmission classifies the raw outcome in strict priority order: exit
status 137 or wall-clock time above job.timeLimit gives TIME_LIMIT_EXCEEDED;
otherwise memory above job.memoryLimit megabytes gives MEMORY_LIMIT_EXCEEDED;
otherwise a nonzero exit gives COMPILATION_ERROR exactly when stderr matches
a compile-error signature and RUNTIME_ERROR otherwise; a zero exit gives
ACCEPTED with full score. -/
theorem C2_classification_priority (job : SubmissionJob) (config : RunnerConfig)
    (lc : LangConfig) (hl : LANGUAGE_CONFIG job.language = some lc)
    (statusCode elapsed memUsage : Nat) (output errorOutput : String) :
    ((statusCode = 137 ∨ elapsed > job.timeLimit) →
      (processSubmission (okOracle statusCode elapsed memUsage output errorOutput)
        job config).result.verdict = "TIME_LIMIT_EXCEEDED") ∧
    (¬(statusCode = 137 ∨ elapsed > job.timeLimit) →
      memUsage > job.memoryLimit * 1024 * 1024 →
      (processSubmission (okOracle statusCode elapsed memUsage output errorOutput)
        job config).result.verdict = "MEMORY_LIMIT_EXCEEDED") ∧
    (¬(statusCode = 137 ∨ elapsed > job.timeLimit) →
      ¬(memUsage > job.memoryLimit * 1024 * 1024) →
      statusCode ≠ 0 →
      (strIncludes errorOutput "Compilation error" ||
        strIncludes errorOutput "SyntaxError") = true →
      (processSubmission (okOracle statusCode elapsed memUsage output errorOutput)
        job config).result.verdict = "COMPILATION_ERROR") ∧
    (¬(statusCode = 137 ∨ elapsed > job.timeLimit) →
      ¬(memUsage > job.memoryLimit * 1024 * 1024) →
      statusCode ≠ 0 →
      (strIncludes errorOutput "Compilation error" ||
        strIncludes errorOutput "SyntaxError") = false →
      (processSubmission (okOracle statusCode elapsed memUsage output errorOutput)
        job config).result.verdict = "RUNTIME_ERROR") ∧
    (¬(statusCode = 137 ∨ elapsed > job.timeLimit) →
      ¬(memUsage > job.memoryLimit * 1024 * 1024) →
      statusCode = 0 →
      (processSubmission (okOracle statusCode elapsed memUsage output errorOutput)
        job config).result.verdict = "ACCEPTED" ∧
      (processSubmission (okOracle statusCode elapsed memUsage output errorOutput)
        job config).result.score = some 100) := by
  rw [processSubmission_okOracle job config lc hl]
  refine ⟨?_, ?_, ?_, ?_, ?_⟩
  · intro h1
    simp only [classifyOutcome, if_pos h1]
  · intro h1 h2
    simp only [classifyOutcome, if_neg h1, if_pos h2]
  · intro h1 h2 h3 h4
    simp only [classifyOutcome, if_neg h1, if_neg h2, if_pos h3, h4,
      Bool.true_eq_false, if_true]
  · intro h1 h2 h3 h4
    simp only [classifyOutcome, if_neg h1, if_neg h2, if_pos h3, h4,
      Bool.false_eq_true, if_false]
  · intro h1 h2 h3
    have h3' : ¬(statusCode ≠ 0) := by simpa using h3
    simp [classifyOutcome, if_neg h1, if_neg h2, if_neg h3']

/-- Witness for C2: the design document's concrete scenario — python
`print(1+1)`, exit 0 after 5 ms within limits — is classified ACCEPTED with
score 100. -/
theorem C2_classification_priority_witness :
    LANGUAGE_CONFIG job0.language = some pythonConfig ∧
    (processSubmission (okOracle 0 5 1000 "2\n" "") job0 cfg0).result.verdict
      = "ACCEPTED" ∧
    (processSubmission (okOracle 0 5 1000 "2\n" "") job0 cfg0).result.score
      = some 100 := by
  have h := (C2_classification_priority job0 cfg0 pythonConfig rfl
    0 5 1000 "2\n" "").2.2.2.2 (by decide) (by decide) rfl
  exact ⟨rfl, h.1, h.2⟩

/-- C3 counterexample: for the concrete python job with a declared 256 MB
limit and the default worker configuration, the container is created with a
hard memory ceiling of 536870912 bytes, the worker-wide config.maxMemory —
not the job's 268435456 bytes. -/
theorem C3_memory_ceiling_not_from_job :
    createdMemory (processSubmission oracle0 job0 cfg0).events = some 536870912 ∧
    cfg0.maxMemory = 536870912 ∧
    job0.memoryLimit * 1024 * 1024 = 268435456 ∧
    ((536870912 : Nat) == 268435456) = false :=
  ⟨rfl, rfl, rfl, rfl⟩

/-- C3 amended: whenever a container is provisioned, its hard memory ceiling
(HostConfig.Memory) equals the worker-wide config.maxMemory; job.memoryLimit
is used only during verdict classification. -/
theorem C3_memory_ceiling_from_worker_config (o : DockerOracle)
    (job : SubmissionJob) (config : RunnerConfig) (lc : LangConfig)
    (hl : LANGUAGE_CONFIG job.language = some lc) (hc : o.createOk = true) :
    createdMemory (processSubmission o job config).events = some config.maxMemory := by
  unfold processSubmission
  rw [hl]
  by_cases hs : (o.putArchiveOk && o.startOk && o.logsOk && o.waitOk && o.statsOk) = true <;>
    by_cases hr : o.removeOk = true <;>
      simp [hc, hs, hr, catchRun, createdMemory]

/-- Witness for C3 amended: the concrete python run creates its container
with memory ceiling cfg0.maxMemory. -/
theorem C3_memory_ceiling_from_worker_config_witness :
    LANGUAGE_CONFIG job0.language = some pythonConfig ∧
    oracle0.createOk = true ∧
    createdMemory (processSubmission oracle0 job0 cfg0).events = some cfg0.maxMemory :=
  ⟨rfl, rfl, C3_memory_ceiling_from_worker_config oracle0 job0 cfg0 pythonConfig rfl rfl⟩

/-- C4: as long as the forced container removal itself succeeds, no container
created for the job exists when processSubmission returns — on the success
path and on every exception path — and every container creation in the trace
is matched by a removal of the same container. -/
theorem C4_container_removed_on_every_path (o : DockerOracle)
    (job : SubmissionJob) (config : RunnerConfig) (hrm : o.removeOk = true) :
    (processSubmission o job config).containers = [] ∧
    ∀ name image mem sw pids,
      DockerEvent.createContainer name image mem sw pids ∈
        (processSubmission o job config).events →
      DockerEvent.removeContainer name ∈ (processSubmission o job config).events := by
  unfold processSubmission
  cases hL : LANGUAGE_CONFIG job.language with
  | none =>
      refine ⟨rfl, ?_⟩
      intro name image mem sw pids hmem
      simp at hmem
  | some lc =>
      by_cases hc : o.createOk = true <;>
        by_cases hs : (o.putArchiveOk && o.startOk && o.logsOk && o.waitOk && o.statsOk) = true <;>
          simp [hc, hs, hrm, catchRun]
      all_goals
        intro name image mem sw pids h1 _ _ _ _
        exact h1

/-- Witness for C4: on the concrete all-success python run the removal flag
holds, no container survives the call, and the created container
`submission-s1` has a removal event in the trace. -/
theorem C4_container_removed_on_every_path_witness :
    oracle0.removeOk = true ∧
    (processSubmission oracle0 job0 cfg0).containers = [] ∧
    DockerEvent.removeContainer "submission-s1" ∈
      (processSubmission oracle0 job0 cfg0).events :=
  ⟨rfl, (C4_container_removed_on_every_path oracle0 job0 cfg0 rfl).1,
    (C4_container_removed_on_every_path oracle0 job0 cfg0 rfl).2
      "submission-s1" "codecontest/python-runner:latest" 536870912 536870912 32
      (by decide)⟩

/-- C5: the shared activeContainers bookkeeping map is never added to. No
statement in processJob or processSubmission touches the map, so threading it
through a job leaves it unchanged on every path; concretely, starting from
the empty map, right after a sandbox is successfully provisioned for the
python job the map is still empty even though a container now exists. -/
theorem C5_active_containers_never_added :
    (∀ (active : List String) (o : DockerOracle) (job : SubmissionJob)
        (config : RunnerConfig),
      (processSubmissionShared active o job config).finalActive = active) ∧
    (processSubmissionShared [] oracle0 job0 cfg0).afterProvision = some [] ∧
    hasCreate (processSubmissionShared [] oracle0 job0 cfg0).run.events = true := by
  refine ⟨?_, rfl, rfl⟩
  intro active o job config
  unfold processSubmissionShared
  cases LANGUAGE_CONFIG job.language with
  | none => rfl
  | some lc => by_cases hc : o.createOk = true <;> simp [hc]

/-- C6: pollQueue fetches the job before looking at capacity: when the queue
returns a job while the worker is already at its concurrency ceiling, the
already-dequeued job is discarded instead of handed to the coordinator;
below the ceiling it is handed over. -/
theorem C6_dequeued_job_dropped_at_capacity :
    pollQueue (PollResponse.okJob job0) 4 4 = PollAction.dropped job0 ∧
    pollQueue (PollResponse.okJob job0) 0 4 = PollAction.handed job0 := by
  constructor <;> simp [pollQueue]

/-- C7: signing then verifying round-trips: both wrapper halves built by
createSigner pass the same hash algorithm (SHA256) and the same signature
encoding (base64) of the same payload to the backend, so for any matching
keypair the verifier accepts the signer's output. -/
theorem C7_sign_verify_roundtrip (P : CryptoPrimitive)
    (privateKey publicKey : String)
    (h : MatchingKeypair P privateKey publicKey) (data : String) :
    (createSigner P privateKey).verify data
      ((createSigner P privateKey).sign data) publicKey = true :=
  h "SHA256" data "base64"

/-- Witness for C7: a concrete matching keypair of the toy backend
round-trips on a concrete payload. -/
theorem C7_sign_verify_roundtrip_witness :
    MatchingKeypair toyPrimitive "key-K" "key-K" ∧
    (createSigner toyPrimitive "key-K").verify "payload"
      ((createSigner toyPrimitive "key-K").sign "payload") "key-K" = true := by
  have h : MatchingKeypair toyPrimitive "key-K" "key-K" := by
    intro alg data enc
    simp [toyPrimitive]
  exact ⟨h, C7_sign_verify_roundtrip toyPrimitive "key-K" "key-K" h "payload"⟩

/-- C8: a job whose language has no LANGUAGE_CONFIG entry yields an immediate
SYSTEM_ERROR with no Docker side effect: the trace is empty and no container
exists afterwards. -/
theorem C8_unsupported_language_no_sandbox (o : DockerOracle)
    (job : SubmissionJob) (config : RunnerConfig)
    (h : LANGUAGE_CONFIG job.language = none) :
    (processSubmission o job config).result.verdict = "SYSTEM_ERROR" ∧
    (processSubmission o job config).result.error
      = some ("Unsupported language: " ++ job.language) ∧
    (processSubmission o job config).events = [] ∧
    (processSubmission o job config).containers = [] := by
  unfold processSubmission
  rw [h]
  exact ⟨rfl, rfl, rfl, rfl⟩

/-- Witness for C8: the haskell job is unsupported and is rejected without
any Docker event. -/
theorem C8_unsupported_language_no_sandbox_witness :
    LANGUAGE_CONFIG jobBad.language = none ∧
    (processSubmission oracle0 jobBad cfg0).result.verdict = "SYSTEM_ERROR" ∧
    (processSubmission oracle0 jobBad cfg0).events = [] :=
  ⟨rfl, (C8_unsupported_language_no_sandbox oracle0 jobBad cfg0 rfl).1,
    (C8_unsupported_language_no_sandbox oracle0 jobBad cfg0 rfl).2.2.1⟩

/-- C9 counterexample: a registration failure is fatal. registerRunner logs
and rethrows, and `main().catch` calls `process.exit(1)`, so a transport
failure while registering terminates the worker process. -/
theorem C9_registration_failure_exits :
    mainStartup (registerRunner (HttpOutcome.transportError "fetch failed"))
      = MainOutcome.exited 1 := rfl

/-- C9 amended: heartbeat failures are swallowed after logging and each
scheduled tick runs regardless of earlier outcomes, so heartbeats are never
fatal; registration failure, by contrast, is rethrown and exits the process
with code 1, while successful registration leaves the worker running. -/
theorem C9_heartbeat_nonfatal_registration_fatal :
    (∀ h : HttpOutcome, heartbeat h = Except.ok ()) ∧
    (∀ (outcomes : Nat → HttpOutcome) (n : Nat),
        heartbeatTicks outcomes n = List.replicate n (Except.ok ())) ∧
    (∀ s : Nat, mainStartup (registerRunner (HttpOutcome.httpError s))
        = MainOutcome.exited 1) ∧
    (∀ m : String, mainStartup (registerRunner (HttpOutcome.transportError m))
        = MainOutcome.exited 1) ∧
    mainStartup (registerRunner HttpOutcome.ok) = MainOutcome.running := by
  have hh : ∀ h : HttpOutcome, heartbeat h = Except.ok () := by
    intro h; cases h <;> rfl
  refine ⟨hh, ?_, fun s => rfl, fun m => rfl, rfl⟩
  intro outcomes n
  simp only [heartbeatTicks, hh]
  simp [List.map_const', List.length_range]

/-- C10: the verdict of every processSubmission result, over every oracle,
job and configuration, lies in the closed set SYSTEM_ERROR,
TIME_LIMIT_EXCEEDED, MEMORY_LIMIT_EXCEEDED, COMPILATION_ERROR, RUNTIME_ERROR,
ACCEPTED; WRONG_ANSWER is never produced; and the result reports
testCasesPassed 1 of 1 exactly when the verdict is ACCEPTED. -/
theorem C10_verdict_closed_set (o : DockerOracle) (job : SubmissionJob)
    (config : RunnerConfig) :
    ((processSubmission o job config).result.verdict = "SYSTEM_ERROR" ∨
     (processSubmission o job config).result.verdict = "TIME_LIMIT_EXCEEDED" ∨
     (processSubmission o job config).result.verdict = "MEMORY_LIMIT_EXCEEDED" ∨
     (processSubmission o job config).result.verdict = "COMPILATION_ERROR" ∨
     (processSubmission o job config).result.verdict = "RUNTIME_ERROR" ∨
     (processSubmission o job config).result.verdict = "ACCEPTED") ∧
    ((processSubmission o job config).result.verdict == "WRONG_ANSWER") = false ∧
    ((processSubmission o job config).result.verdict = "ACCEPTED" ↔
      (processSubmission o job config).result.testCasesPassed = some 1 ∧
      (processSubmission o job config).result.totalTestCases = some 1) := by
  unfold processSubmission
  cases hL : LANGUAGE_CONFIG job.language with
  | none =>
      simp [sysError]
  | some lc =>
      by_cases hc : o.createOk = true <;>
        by_cases hs : (o.putArchiveOk && o.startOk && o.logsOk && o.waitOk && o.statsOk) = true <;>
          by_cases hr : o.removeOk = true <;>
            simp only [hc, hs, hr, if_true, if_false, Bool.false_eq_true, catchRun, sysError]
      case pos =>
        -- the success path: the verdict comes from classifyOutcome
        rcases classifyOutcome_fst_mem job o.statusCode o.elapsed o.memUsage o.errorOutput with
          h | h | h | h | h <;>
          simp [h]
      all_goals simp

end CloudRunner
